import Mathlib

/-!
Shallow embedding of `launch_game.py` (DoctorateRS/Launcher) for verifying
the device/session bring-up specification.  Python strings that undergo
substring tests or replacement are modelled as `List Char`; JSON presence
or absence of a key is modelled with `Option`; Python `dict` objects are
modelled as insertion-ordered association lists.
-/

namespace Launcher

/-- Python strings, modelled as lists of characters. -/
abbrev PyStr := List Char

/-- `startsWith pat s` is true when `pat` is a prefix of `s`
(the building block for Python substring tests). -/
def startsWith : PyStr → PyStr → Bool
  | [], _ => true
  | _ :: _, [] => false
  | p :: ps, c :: cs => if p = c then startsWith ps cs else false

/-- Python `pat in s`: `pat` occurs as a contiguous substring of `s`. -/
def containsSub (pat : PyStr) : PyStr → Bool
  | [] => startsWith pat []
  | c :: cs => startsWith pat (c :: cs) || containsSub pat cs

/-- Number of positions of `s` at which `pat` occurs (used to state the
"exactly one occurrence" side condition of the bootstrap-script contract). -/
def countSub (pat : PyStr) : PyStr → Nat
  | [] => if startsWith pat [] then 1 else 0
  | c :: cs => (if startsWith pat (c :: cs) then 1 else 0) + countSub pat cs

/-- Python `s.replace(pat, rep, 1)`: replace the first occurrence only. -/
def replaceFirst (pat rep : PyStr) : PyStr → PyStr
  | [] => if pat = [] then rep else []
  | c :: cs =>
    if startsWith pat (c :: cs) then rep ++ (c :: cs).drop pat.length
    else c :: replaceFirst pat rep cs

/-- Decimal digit character for `n % 10`. -/
def digitChar (n : Nat) : Char :=
  if n = 0 then '0' else if n = 1 then '1' else if n = 2 then '2'
  else if n = 3 then '3' else if n = 4 then '4' else if n = 5 then '5'
  else if n = 6 then '6' else if n = 7 then '7' else if n = 8 then '8' else '9'

/-- Fuelled digit accumulator for rendering a natural number in base 10. -/
def natCharsGo : Nat → Nat → List Char → List Char
  | 0, _, acc => acc
  | fuel + 1, n, acc =>
    if n = 0 then acc else natCharsGo fuel (n / 10) (digitChar (n % 10) :: acc)

/-- Decimal rendering of a natural number (as Python `str`). -/
def natChars (n : Nat) : PyStr :=
  if n = 0 then ['0'] else natCharsGo (n + 1) n []

/-- Python `str(i)` for an integer `i`. -/
def intChars (i : Int) : PyStr :=
  if i < 0 then '-' :: natChars i.natAbs else natChars i.toNat

/-- First-match lookup in an insertion-ordered association list
(Python `d[k]` read, as `Option`). -/
def alookup {α : Type} : List (String × α) → String → Option α
  | [], _ => none
  | (k, v) :: rest, key => if key = k then some v else alookup rest key

/-- Python `d[k] = v`: overwrite in place when the key exists,
append at the end otherwise. -/
def dictSet {α : Type} (m : List (String × α)) (k : String) (v : α) : List (String × α) :=
  if (alookup m k).isSome then m.map (fun p => if p.1 = k then (k, v) else p)
  else m ++ [(k, v)]

/-- Python `del d[k]` on a key known to be present. -/
def dictErase {α : Type} (m : List (String × α)) (k : String) : List (String × α) :=
  m.filter (fun p => p.1 ≠ k)

/-! ## Configuration document

Model of `config/config.json` restricted to the keys the bring-up core
reads or writes.  `Option` at every level records whether the key is
present, matching the `if "k" not in d` defaulting idiom of the source. -/

/-- `version.android` subtree. -/
structure AndroidVer where
  resVersion : Option String
  clientVersion : Option String
deriving DecidableEq

/-- `version` subtree. -/
structure VersionNode where
  android : Option AndroidVer
deriving DecidableEq

/-- One value of the `networkConfig.cn.content.configs` mapping
(the network-endpoint table inserted by `check_updates`). -/
structure NetworkEntry where
  override : Bool
  gs : String
  asv : String
  u8 : String
  hu : String
  hv : String
  rc : String
  an : String
  prean : String
  sl : String
  ofv : String
  pkgAd : Option String
  pkgIOS : Option String
  secure : Bool
deriving DecidableEq

/-- `networkConfig.cn.content` subtree. -/
structure ContentNode where
  funcVer : Option String
  configs : Option (List (String × NetworkEntry))
deriving DecidableEq

/-- `networkConfig.cn` subtree. -/
structure CnNode where
  content : Option ContentNode
deriving DecidableEq

/-- `networkConfig` subtree. -/
structure NetworkNode where
  cn : Option CnNode
deriving DecidableEq

/-- `server` subtree (`host` kept as `List Char` because it is spliced
into script text). -/
structure ServerNode where
  host : Option PyStr
  port : Option Int
  noProxy : Option Bool
deriving DecidableEq

/-- `userConfig` subtree.  `defaultDevice` distinguishes key-absent
(outer `none`) from JSON `null` (inner `none`). -/
structure UserNode where
  defaultDevice : Option (Option String)
  activityMinStartTs : Option Int
  activityMaxStartTs : Option Int
deriving DecidableEq

/-- The configuration document. -/
structure Config where
  version : Option VersionNode
  networkConfig : Option NetworkNode
  server : Option ServerNode
  userConfig : Option UserNode
  scriptConfig : Option (List (String × Bool))
deriving DecidableEq

/-- Python error escaping a modelled function. -/
inductive PyErr where
  | keyError
deriving DecidableEq

/-! ## Device selection (`get_device`, lines 368-441)

The enumeration/connect loop is device IO; the claims concern the
selection logic once a non-empty enumeration is obtained, which is
embedded here.  Operator input is a list of lines; reading past its end
models the `EOFError` crash of `input()` at end of stream, and an empty
enumeration models the unbounded retry loop: both yield `none`. -/

/-- One enumerated ADB device. -/
structure Device where
  serial : String
deriving DecidableEq

/-- ASCII whitespace (the characters `str.strip`-style trimming and
the regex class `\s` recognize). -/
def isSpaceChar (c : Char) : Bool :=
  c = ' ' || c = '\t' || c = '\n' || c = '\r' || c = '\x0b' || c = '\x0c'

/-- Value of a decimal digit character. -/
def digitVal (c : Char) : Option Nat :=
  if c = '0' then some 0 else if c = '1' then some 1 else if c = '2' then some 2
  else if c = '3' then some 3 else if c = '4' then some 4 else if c = '5' then some 5
  else if c = '6' then some 6 else if c = '7' then some 7 else if c = '8' then some 8
  else if c = '9' then some 9 else none

/-- Parse a non-empty all-digit run, most significant first. -/
def parseNatChars : List Char → Nat → Option Nat
  | [], acc => some acc
  | c :: cs, acc =>
    match digitVal c with
    | none => none
    | some d => parseNatChars cs (acc * 10 + d)

/-- Python `int(s)` as used on operator input: optional surrounding
whitespace, optional sign, decimal digits; `none` models `ValueError`. -/
def pyInt (s : String) : Option Int :=
  let t := ((s.toList.dropWhile isSpaceChar).reverse.dropWhile isSpaceChar).reverse
  match t with
  | [] => none
  | c :: ds =>
    if c = '-' then
      if ds.isEmpty then none else (parseNatChars ds 0).map (fun v => -(v : Int))
    else if c = '+' then
      if ds.isEmpty then none else (parseNatChars ds 0).map (fun v => (v : Int))
    else (parseNatChars (c :: ds) 0).map (fun v => (v : Int))

/-- Python truthiness of the `defaultDevice` value (absent key already
defaulted to `None`): `None` and the empty string are falsy. -/
def pyTruthy : Option String → Bool
  | none => false
  | some s => s ≠ ""

/-- Python `input().lower() in {"y", "yes"}`. -/
def pyYes (s : String) : Bool :=
  s.toList.map Char.toLower = ['y'] || s.toList.map Char.toLower = ['y', 'e', 's']

/-- The re-prompting selection loop (lines 425-434): parse a line as an
integer, re-prompt on `ValueError` or an out-of-range index, return the
0-based index and the unconsumed input otherwise. -/
def selectionLoop (n : Nat) : List String → Option (Nat × List String)
  | [] => none
  | s :: rest =>
    match pyInt s with
    | none => selectionLoop n rest
    | some k =>
      if k - 1 < 0 ∨ (n : Int) ≤ k - 1 then selectionLoop n rest
      else some ((k - 1).toNat, rest)

/-- Ensure `userConfig.defaultDevice` exists, defaulting to `None`
(lines 403-406). -/
def defaultUserDevice (c : Config) : Config :=
  let u := c.userConfig.getD { defaultDevice := none, activityMinStartTs := none, activityMaxStartTs := none }
  { c with userConfig := some { u with defaultDevice := some (u.defaultDevice.getD none) } }

/-- Outcome of `get_device`: the chosen device, the number of operator
input lines consumed, and the (possibly mutated) configuration. -/
structure GDResult where
  device : Device
  inputReads : Nat
  config : Config
deriving DecidableEq

/-- The `userConfig` subtree with absent keys viewed as all-absent
(first step of every read of it). -/
def Config.userD (c : Config) : UserNode :=
  c.userConfig.getD { defaultDevice := none, activityMinStartTs := none, activityMaxStartTs := none }

/-- Overwrite `userConfig.defaultDevice` with a chosen serial
(line 436). -/
def setDefaultDevice (cfg : Config) (serial : String) : Config :=
  { cfg with userConfig := some { cfg.userD with defaultDevice := some (some serial) } }

/-- Epilogue of the interactive branch (lines 435-439): read the
confirmation line, optionally persist the chosen serial as the new
default, and return the device at the selected index together with the
number of operator lines consumed (`total` is the length of the whole
input stream). -/
def promptFinish (devices : List Device) (cfg : Config) (total : Nat) (i : Nat) :
    List String → Option GDResult
  | [] => none
  | ans :: rest2 =>
    let chosen := devices.getD i { serial := "" }
    let cfg2 := if pyYes ans then setDefaultDevice cfg chosen.serial else cfg
    some ⟨chosen, total - rest2.length, cfg2⟩

/-- The interactive branch (lines 418-439): run the selection loop,
then the confirmation epilogue. -/
def promptFlow (devices : List Device) (cfg : Config) (inputs : List String) :
    Option GDResult :=
  match selectionLoop devices.length inputs with
  | none => none
  | some (i, rest) => promptFinish devices cfg inputs.length i rest

/-- `get_device` after a non-empty enumeration (lines 392-441).  With
more than one device: a truthy remembered default that matches some
device is returned at once; a truthy default that matches none falls
through to `return devices[0]` (line 441); a falsy default enters the
interactive selection followed by the confirmation read. -/
def get_device (devices : List Device) (cfg : Config) (inputs : List String) :
    Option GDResult :=
  match devices with
  | [] => none
  | d0 :: _ =>
    if 1 < devices.length then
      let cfg2 := defaultUserDevice cfg
      if pyTruthy (cfg2.userD.defaultDevice.getD none) then
        match devices.find? (fun d => d.serial = (cfg2.userD.defaultDevice.getD none).getD "") with
        | some d => some ⟨d, 0, cfg2⟩
        | none => some ⟨d0, 0, cfg2⟩
      else promptFlow devices cfg2 inputs
    else some ⟨d0, 0, cfg⟩

/-! ## Readiness monitor (`check_device_state`, lines 444-491)

The initial `netstat -tulpn` dump and the per-iteration wall-clock
reading and `dumpsys connectivity` outcome are inputs.  The regex
`REGEX_PATTERN` (line 101), a lookbehind anchored at the
`mLegacyTypeTracker` block, is embedded as a deterministic matcher. -/

/-- Python regex `\s` character class (ASCII view). -/
def isWsChar (c : Char) : Bool :=
  c = ' ' || c = '\t' || c = '\n' || c = '\r' || c = '\x0b' || c = '\x0c'

/-- Consume `\s*\n\s*` before a non-whitespace literal: the maximal
whitespace run, required to contain a newline. -/
def wsWithNl (s : PyStr) : Option PyStr :=
  if (s.takeWhile isWsChar).contains '\n' then some (s.dropWhile isWsChar) else none

/-- Consume an exact literal. -/
def dropLit (lit s : PyStr) : Option PyStr :=
  if startsWith lit s then some (s.drop lit.length) else none

/-- Whether a segment is of the form `.*\s*\n\s*`: some newline-free
text followed by whitespace that contains a newline. -/
def segOk (seg : PyStr) : Bool :=
  let r := seg.reverse
  (r.takeWhile isWsChar).contains '\n' && !((r.dropWhile isWsChar).contains '\n')

/-- Scan for an occurrence of `Current state:` whose preceding segment
(relative to the scan origin) matches `.*\s*\n\s*`; `acc` is the
reversed text consumed so far. -/
def findCS (acc : PyStr) : PyStr → Option PyStr
  | [] => none
  | c :: cs =>
    if startsWith ("Current state:".toList) (c :: cs) ∧ segOk acc.reverse then
      some ((c :: cs).drop ("Current state:".toList).length)
    else findCS (c :: acc) cs

/-- Match the part of `REGEX_PATTERN` that follows the literal
`mLegacyTypeTracker:`, returning the group-0 text (rest of line after
`[0-9] `) on success. -/
def matchTail (s : PyStr) : Option PyStr :=
  match wsWithNl s with
  | none => none
  | some s1 =>
    match dropLit ("Supported types: ".toList) s1 with
    | none => none
    | some s2 =>
      match findCS [] s2 with
      | none => none
      | some s3 =>
        match wsWithNl s3 with
        | none => none
        | some s4 =>
          match s4 with
          | d :: sp :: rest =>
            if d.isDigit ∧ sp = ' ' then some (rest.takeWhile (fun c => c ≠ '\n'))
            else none
          | _ => none

/-- Search the dump for a match of `REGEX_PATTERN`, left to right. -/
def connSearch : PyStr → Option PyStr
  | [] => none
  | c :: cs =>
    if startsWith ("mLegacyTypeTracker:".toList) (c :: cs) then
      match matchTail ((c :: cs).drop ("mLegacyTypeTracker:".toList).length) with
      | some g => some g
      | none => connSearch cs
    else connSearch cs

/-- `connectivity and connectivity.group(0)` (line 485): a match was
found and its extracted status token is non-empty. -/
def connectivityReady (dump : PyStr) : Bool :=
  match connSearch dump with
  | some g => !g.isEmpty
  | none => false

/-- Line 469: the netstat dump lists one of the stable-state markers
`system_server`, `ntp_server`, `adbd` and does not list `frida-server`. -/
def inconsistentState (netstat : PyStr) : Bool :=
  (containsSub ("system_server".toList) netstat
    || containsSub ("ntp_server".toList) netstat
    || containsSub ("adbd".toList) netstat)
  && !containsSub ("frida-server".toList) netstat

/-- One poll observation: the `time.time()` value at the loop head and
the `dumpsys connectivity` outcome (`.error` models
`subprocess.CalledProcessError`). -/
abbrev Poll := Nat × Except Unit PyStr

/-- The reboot-and-poll loop (lines 474-490) over a schedule of poll
observations; `true` means the loop terminated (`break` reached), by
soft timeout or by finding the connectivity marker.  An exhausted
schedule (which the claims exclude by hypothesis) yields `false`. -/
def pollLoop (deadline : Nat) : List Poll → Bool
  | [] => false
  | (t, r) :: rest =>
    if deadline < t then true
    else
      match r with
      | Except.error _ => pollLoop deadline rest
      | Except.ok dump => if connectivityReady dump then true else pollLoop deadline rest

/-- Outcome of `check_device_state`: whether a reboot was issued and
whether `event.set()` (line 491) was reached. -/
structure CDSResult where
  rebooted : Bool
  eventSet : Bool
deriving DecidableEq

/-- `check_device_state` given the initial netstat dump (assumed to
succeed), the `time.time()` reading used to form the 30-second soft
deadline (line 473), and the poll schedule. -/
def check_device_state (netstat : PyStr) (t0 : Nat) (polls : List Poll) : CDSResult :=
  if inconsistentState netstat then
    { rebooted := true, eventSet := pollLoop (t0 + 30) polls }
  else
    { rebooted := false, eventSet := true }

/-! ## Version check (`check_updates`, lines 195-302)

The two HTTP fetches are inputs; `.error ()` models
`requests.exceptions.Timeout`.  `update_client` and `update_activity`
operate on external files and the network, so the embedding records
whether each was invoked. -/

/-- Body of the version endpoint response. -/
structure VersionResp where
  resVersion : String
  clientVersion : String
deriving DecidableEq

/-- Parsed `content` of the network-config endpoint response. -/
structure NetContent where
  funcVer : String
deriving DecidableEq

/-- The endpoint table inserted under key `""` when
`networkConfig.cn.content.configs` is absent (lines 265-284). -/
def defaultNetworkEntry : NetworkEntry where
  override := true
  gs := "{server}"
  asv := "{server}"
  u8 := "{server}/u8"
  hu := "{server}/assetbundle/official"
  hv := "{server}/config/prod/official/{0}/version"
  rc := "{server}/config/prod/official/remote_config"
  an := "{server}/config/prod/announce_meta/{0}/announcement.meta.json"
  prean := "{server}/config/prod/announce_meta/{0}/preannouncement.meta.json"
  sl := "https://ak.hypergryph.com/protocol/service"
  ofv := "https://ak.hypergryph.com/index.html"
  pkgAd := none
  pkgIOS := none
  secure := false

/-- Insert the `version.android.{resVersion,clientVersion}` defaults
(lines 213-220). -/
def defaultVersionKeys (c : Config) : Config :=
  let vn := c.version.getD { android := none }
  let an := vn.android.getD { resVersion := none, clientVersion := none }
  let an2 : AndroidVer :=
    { resVersion := some (an.resVersion.getD ""), clientVersion := some (an.clientVersion.getD "") }
  { c with version := some { android := some an2 } }

/-- Insert the `networkConfig.cn.content.funcVer` default
(lines 224-231). -/
def defaultFuncVerKey (c : Config) : Config :=
  let nn := c.networkConfig.getD { cn := none }
  let cn := nn.cn.getD { content := none }
  let ct := cn.content.getD { funcVer := none, configs := none }
  let ct2 : ContentNode := { ct with funcVer := some (ct.funcVer.getD "") }
  { c with networkConfig := some { cn := some { content := some ct2 } } }

/-- `version.android.resVersion` after defaulting. -/
def Config.resVer (c : Config) : String :=
  (((c.version.getD { android := none }).android.getD
      { resVersion := none, clientVersion := none }).resVersion).getD ""

/-- `version.android.clientVersion` after defaulting. -/
def Config.clientVer (c : Config) : String :=
  (((c.version.getD { android := none }).android.getD
      { resVersion := none, clientVersion := none }).clientVersion).getD ""

/-- The `networkConfig.cn.content` subtree after defaulting. -/
def Config.content (c : Config) : ContentNode :=
  ((c.networkConfig.getD { cn := none }).cn.getD { content := none }).content.getD
    { funcVer := none, configs := none }

/-- `networkConfig.cn.content.funcVer` after defaulting. -/
def Config.funcV (c : Config) : String :=
  c.content.funcVer.getD ""

/-- Overwrite `version.android.resVersion` (key known present). -/
def setResVer (c : Config) (v : String) : Config :=
  let vn := c.version.getD { android := none }
  let an := vn.android.getD { resVersion := none, clientVersion := none }
  { c with version := some { android := some { an with resVersion := some v } } }

/-- Overwrite `version.android.clientVersion` (key known present). -/
def setClientVer (c : Config) (v : String) : Config :=
  let vn := c.version.getD { android := none }
  let an := vn.android.getD { resVersion := none, clientVersion := none }
  { c with version := some { android := some { an with clientVersion := some v } } }

/-- Overwrite the `networkConfig.cn.content` subtree. -/
def setContent (c : Config) (ct : ContentNode) : Config :=
  { c with networkConfig := some { cn := some { content := some ct } } }

/-- Outcome of `check_updates`: the resulting document (or the
uncaught error), how many times each endpoint was requested, and
whether each follow-up updater was invoked. -/
structure CUResult where
  config : Except PyErr Config
  versionRequests : Nat
  networkRequests : Nat
  updateClientCalled : Bool
  updateActivityCalled : Bool

/-- Apply the fetched version endpoint body (lines 239-252): overwrite
`resVersion` and `clientVersion` on mismatch and report the two
mismatch flags `(resMismatch, clientMismatch)`. -/
def applyVersionResp (c : Config) (v : VersionResp) : Config × Bool × Bool :=
  let resMM := v.resVersion ≠ c.resVer
  let c1 := if resMM then setResVer c v.resVersion else c
  let clientMM := v.clientVersion ≠ c.clientVer
  let c2 := if clientMM then setClientVer c1 v.clientVersion else c1
  (c2, resMM, clientMM)

/-- Apply the fetched network-config content (lines 261-288): on a
`funcVer` change, overwrite it, insert the default `configs` table when
the key is absent, then re-key the entry stored under the old `funcVer`
(copy to the new key, delete the old key); reading a missing old key
raises `KeyError`. -/
def applyNetContent (c : Config) (oldFunc : String) (n : NetContent) :
    Except PyErr Config :=
  if n.funcVer ≠ oldFunc then
    let ct : ContentNode := { c.content with funcVer := some n.funcVer }
    let ct : ContentNode :=
      if ct.configs.isNone then { ct with configs := some [("", defaultNetworkEntry)] } else ct
    match alookup (ct.configs.getD []) oldFunc with
    | none => Except.error PyErr.keyError
    | some entry =>
      let m := dictErase (dictSet (ct.configs.getD []) n.funcVer entry) oldFunc
      Except.ok (setContent c { ct with configs := some m })
  else Except.ok c

/-- `check_updates` (lines 195-302).  The `while True` body is executed
once: its trailing `break` sits outside the `try`, so both the success
path and the caught-timeout path leave the loop after a single pass.
Only `requests.exceptions.Timeout` is caught; the `KeyError` raised by
reading `configs[old_func_ver]` (line 285) propagates out, in which
case neither updater runs. -/
def check_updates (cfg : Config) (versionReq : Except Unit VersionResp)
    (networkReq : Except Unit NetContent) : CUResult :=
  let c0 := defaultFuncVerKey (defaultVersionKeys cfg)
  let oldFunc := c0.funcV
  match versionReq with
  | Except.error _ =>
    { config := Except.ok c0, versionRequests := 1, networkRequests := 0,
      updateClientCalled := false, updateActivityCalled := false }
  | Except.ok v =>
    let r := applyVersionResp c0 v
    match networkReq with
    | Except.error _ =>
      { config := Except.ok r.1, versionRequests := 1, networkRequests := 1,
        updateClientCalled := r.2.2, updateActivityCalled := r.2.1 }
    | Except.ok n =>
      match applyNetContent r.1 oldFunc n with
      | Except.error e =>
        { config := Except.error e, versionRequests := 1, networkRequests := 1,
          updateClientCalled := false, updateActivityCalled := false }
      | Except.ok c3 =>
        { config := Except.ok c3, versionRequests := 1, networkRequests := 1,
          updateClientCalled := r.2.2, updateActivityCalled := r.2.1 }

/-! ## Script loading (`script_manager`, lines 788-864)

The directory listing is a list of `(filename, contents)` pairs in
`os.listdir` order (the bootstrap `_.js` is guaranteed present by lines
807-814).  On success the final document is written back; an uncaught
error skips the write. -/

/-- `@@@DOCTORATE_HOST@@@`. -/
def hostTok : PyStr := "@@@DOCTORATE_HOST@@@".toList

/-- `@@@DOCTORATE_PORT@@@`. -/
def portTok : PyStr := "@@@DOCTORATE_PORT@@@".toList

/-- `@@@DOCTORATE_ACTIVITY_MIN_START_TS@@@`. -/
def minTok : PyStr := "@@@DOCTORATE_ACTIVITY_MIN_START_TS@@@".toList

/-- `@@@DOCTORATE_ACTIVITY_MAX_START_TS@@@`. -/
def maxTok : PyStr := "@@@DOCTORATE_ACTIVITY_MAX_START_TS@@@".toList

/-- Lines 819-824: each test reads `config["server"]` directly, so an
absent `server` dict raises `KeyError` — `script_manager` never inserts
the parent key; with it present, the `noProxy`, `host`, `port` field
defaults are inserted (the port default here is 8080). -/
def defaultServerKeys (c : Config) : Except PyErr Config :=
  match c.server with
  | none => Except.error PyErr.keyError
  | some s =>
    let s2 : ServerNode :=
      { noProxy := some (s.noProxy.getD false),
        host := some (s.host.getD "127.0.0.1".toList),
        port := some (s.port.getD 8080) }
    Except.ok { c with server := some s2 }

/-- Lines 825-828: each test reads `config["userConfig"]` directly, so
an absent `userConfig` dict raises `KeyError`; with it present, the
`activity{Min,Max}StartTs` field defaults are inserted. -/
def defaultActivityKeys (c : Config) : Except PyErr Config :=
  match c.userConfig with
  | none => Except.error PyErr.keyError
  | some u =>
    let u2 : UserNode :=
      { u with activityMinStartTs := some (u.activityMinStartTs.getD 0),
               activityMaxStartTs := some (u.activityMaxStartTs.getD 0) }
    Except.ok { c with userConfig := some u2 }

/-- The `server` subtree after defaulting. -/
def Config.serverD (c : Config) : ServerNode :=
  c.server.getD { host := none, port := none, noProxy := none }

/-- The value substituted for the host token (line 833):
`"NO_PROXY"` under `noProxy`, the configured host otherwise. -/
def hostValue (c : Config) : PyStr :=
  if c.serverD.noProxy.getD false then "NO_PROXY".toList
  else (c.serverD.host.getD "127.0.0.1".toList)

/-- The value substituted for the port token (line 838). -/
def portValue (c : Config) : PyStr :=
  intChars (c.serverD.port.getD 8080)

/-- The value substituted for the min-timestamp token (line 843). -/
def minValue (c : Config) : PyStr :=
  intChars (c.userD.activityMinStartTs.getD 0)

/-- The value substituted for the max-timestamp token (line 848). -/
def maxValue (c : Config) : PyStr :=
  intChars (c.userD.activityMaxStartTs.getD 0)

/-- The four chained first-occurrence replacements applied to the
bootstrap script text (lines 830-851), in source order. -/
def substituteBootstrap (c : Config) (s : PyStr) : PyStr :=
  replaceFirst maxTok (maxValue c)
    (replaceFirst minTok (minValue c)
      (replaceFirst portTok (portValue c)
        (replaceFirst hostTok (hostValue c) s)))

/-- The `scriptConfig` presence logic (lines 852-855): an absent
mapping is created empty WITHOUT registering the current filename (the
`elif`); a present mapping lacking the filename gets it registered as
disabled. -/
def scriptRegister (cfg : Config) (filename : String) : Config :=
  match cfg.scriptConfig with
  | none => { cfg with scriptConfig := some [] }
  | some m =>
    if (alookup m filename).isNone then { cfg with scriptConfig := some (m ++ [(filename, false)]) }
    else cfg

/-- One iteration of the `script_manager` loop for a single file:
default the needed keys (which raises `KeyError` when the `server` or
`userConfig` dict is absent), substitute if this is the bootstrap
script, apply the `scriptConfig` presence logic, then decide whether to
load; reading a filename missing from the mapping (line 856) raises
`KeyError`. -/
def scriptStep (cfg : Config) (filename : String) (content : PyStr) :
    Except PyErr (Config × Option PyStr) :=
  match defaultServerKeys cfg with
  | Except.error e => Except.error e
  | Except.ok cfg1 =>
    match defaultActivityKeys cfg1 with
    | Except.error e => Except.error e
    | Except.ok cfg2 =>
      let text := if filename = "_.js" then substituteBootstrap cfg2 content else content
      let cfg3 := scriptRegister cfg2 filename
      if filename = "_.js" then Except.ok (cfg3, some text)
      else
        match alookup (cfg3.scriptConfig.getD []) filename with
        | none => Except.error PyErr.keyError
        | some b => Except.ok (cfg3, if b then some text else none)

/-- The `for filename in os.listdir(script_dir)` loop, accumulating the
names of the scripts loaded into the session. -/
def scriptLoopGo : Config → List (String × PyStr) → Except PyErr (Config × List String)
  | cfg, [] => Except.ok (cfg, [])
  | cfg, (name, content) :: rest =>
    match scriptStep cfg name content with
    | Except.error e => Except.error e
    | Except.ok (cfg2, loaded) =>
      match scriptLoopGo cfg2 rest with
      | Except.error e => Except.error e
      | Except.ok (cfgF, loads) =>
        Except.ok (cfgF, (if loaded.isSome then [name] else []) ++ loads)

/-- `script_manager` over a directory listing: on success the returned
document is the one persisted to `config/config.json` (line 860); an
uncaught error aborts before the write. -/
def script_manager (cfg : Config) (files : List (String × PyStr)) :
    Except PyErr (Config × List String) :=
  scriptLoopGo cfg files

/-! ## Event wiring of `main` (lines 104-192, 444-491, 693-745)

`main` receives a single `threading.Event` (allocated once at line 869)
and hands the same object to both `check_device_state` and
`start_frida_server`.  Events are identified by allocation id; the run
of `main` is the sequence of event operations it and its background
threads perform, in program order. -/

/-- An operation on a readiness event. -/
inductive EventOp where
  | set : Nat → EventOp
  | wait : Nat → EventOp
  | clear : Nat → EventOp
deriving DecidableEq

/-- Allocation id of the event signalled by `check_device_state`. -/
def deviceReadyEventId : Nat := 0

/-- Allocation id of the event signalled by `start_frida_server`:
`main` passes the same object (lines 164 and 189), so the id coincides
with `deviceReadyEventId`. -/
def serverReadyEventId : Nat := 0

/-- The event operations of one run of `main`, in order: the monitor
sets (line 491), main waits and clears (lines 165-166), the server
starter sets (line 736), main waits (line 190). -/
def mainEventOps : List EventOp :=
  [ EventOp.set deviceReadyEventId
  , EventOp.wait deviceReadyEventId
  , EventOp.clear deviceReadyEventId
  , EventOp.set serverReadyEventId
  , EventOp.wait serverReadyEventId ]

/-- Effect of a single operation on the event store
(maps allocation id to set/unset). -/
def applyOp (st : Nat → Bool) : EventOp → (Nat → Bool)
  | EventOp.set i => fun j => if j = i then true else st j
  | EventOp.clear i => fun j => if j = i then false else st j
  | EventOp.wait _ => st

/-- Run a sequence of event operations; a `wait` on an unset event
blocks forever, modelled as `none`. -/
def runOps (st : Nat → Bool) : List EventOp → Option (Nat → Bool)
  | [] => some st
  | op :: rest =>
    match op with
    | EventOp.wait i => if st i then runOps st rest else none
    | _ => runOps (applyOp st op) rest

/-! ## Helper lemmas -/

theorem startsWith_iff (p : PyStr) : ∀ s : PyStr, startsWith p s = true ↔ ∃ r, s = p ++ r := by
  induction p with
  | nil => intro s; simp [startsWith]
  | cons c cs ih =>
    intro s
    cases s with
    | nil =>
      simp only [startsWith]
      constructor
      · intro h; cases h
      · rintro ⟨r, hr⟩; cases hr
    | cons d ds =>
      simp only [startsWith]
      by_cases h : c = d
      · subst h
        rw [if_pos rfl, ih]
        constructor
        · rintro ⟨r, hr⟩; exact ⟨r, by rw [List.cons_append, hr]⟩
        · rintro ⟨r, hr⟩
          refine ⟨r, ?_⟩
          rw [List.cons_append] at hr
          exact (List.cons.injEq _ _ _ _ ▸ hr).2
      · rw [if_neg h]
        constructor
        · intro hf; cases hf
        · rintro ⟨r, hr⟩
          rw [List.cons_append] at hr
          exact absurd (List.cons.injEq _ _ _ _ ▸ hr).1.symm h

theorem containsSub_iff (p : PyStr) : ∀ s : PyStr,
    containsSub p s = true ↔ ∃ l r, s = l ++ (p ++ r) := by
  intro s
  induction s with
  | nil =>
    simp only [containsSub, startsWith_iff]
    constructor
    · rintro ⟨r, hr⟩; exact ⟨[], r, by simpa using hr⟩
    · rintro ⟨l, r, hlr⟩
      cases l with
      | nil => exact ⟨r, by simpa using hlr⟩
      | cons x xs => cases hlr
  | cons c cs ih =>
    simp only [containsSub, Bool.or_eq_true, startsWith_iff, ih]
    constructor
    · rintro (⟨r, hr⟩ | ⟨l, r, hlr⟩)
      · exact ⟨[], r, by simpa using hr⟩
      · exact ⟨c :: l, r, by rw [List.cons_append, ← hlr]⟩
    · rintro ⟨l, r, hlr⟩
      cases l with
      | nil => exact Or.inl ⟨r, by simpa using hlr⟩
      | cons x xs =>
        right
        rw [List.cons_append] at hlr
        exact ⟨xs, r, (List.cons.injEq _ _ _ _ ▸ hlr).2⟩

theorem startsWith_append_self (t b : PyStr) : startsWith t (t ++ b) = true := by
  rw [startsWith_iff]; exact ⟨b, rfl⟩

theorem startsWith_cons (pc c : Char) (ps cs : PyStr) :
    startsWith (pc :: ps) (c :: cs) = if pc = c then startsWith ps cs else false := rfl

theorem replaceFirst_cons_pos (t rep : PyStr) (c : Char) (cs : PyStr)
    (h : startsWith t (c :: cs) = true) :
    replaceFirst t rep (c :: cs) = rep ++ (c :: cs).drop t.length := by
  conv_lhs => rw [replaceFirst]
  rw [h]
  exact if_pos rfl

theorem replaceFirst_cons_neg (t rep : PyStr) (c : Char) (cs : PyStr)
    (h : startsWith t (c :: cs) = false) :
    replaceFirst t rep (c :: cs) = c :: replaceFirst t rep cs := by
  conv_lhs => rw [replaceFirst]
  rw [h]
  exact if_neg Bool.false_ne_true

theorem replaceFirst_marked (t rep : PyStr) (c0 : Char) (ht : t.head? = some c0) :
    ∀ a b : PyStr, (∀ x ∈ a, x ≠ c0) →
      replaceFirst t rep (a ++ (t ++ b)) = a ++ (rep ++ b) := by
  obtain ⟨u, rfl⟩ : ∃ u, t = c0 :: u := by
    cases t with
    | nil => cases ht
    | cons h tl => exact ⟨tl, by injection ht with h1; rw [h1]⟩
  intro a
  induction a with
  | nil =>
    intro b _
    simp only [List.nil_append]
    have h : startsWith (c0 :: u) (c0 :: (u ++ b)) = true := startsWith_append_self (c0 :: u) b
    rw [show ((c0 :: u) ++ b : PyStr) = c0 :: (u ++ b) from rfl,
        replaceFirst_cons_pos _ _ _ _ h]
    rw [show (c0 :: (u ++ b) : PyStr) = (c0 :: u) ++ b from rfl, List.drop_left]
  | cons x xs ih =>
    intro b hmem
    have hx : x ≠ c0 := hmem x (List.mem_cons_self x xs)
    have h : startsWith (c0 :: u) (x :: (xs ++ ((c0 :: u) ++ b))) = false := by
      rw [startsWith_cons, if_neg (fun hh => hx hh.symm)]
    calc replaceFirst (c0 :: u) rep ((x :: xs) ++ ((c0 :: u) ++ b))
        = replaceFirst (c0 :: u) rep (x :: (xs ++ ((c0 :: u) ++ b))) := rfl
      _ = x :: replaceFirst (c0 :: u) rep (xs ++ ((c0 :: u) ++ b)) :=
          replaceFirst_cons_neg _ _ _ _ h
      _ = x :: (xs ++ (rep ++ b)) := by
          rw [ih b (fun y hy => hmem y (List.mem_cons_of_mem x hy))]
      _ = (x :: xs) ++ (rep ++ b) := rfl

theorem digitChar_ne_at (n : Nat) : digitChar n ≠ '@' := by
  unfold digitChar
  repeat' split
  all_goals decide

theorem natCharsGo_at_free : ∀ (fuel n : Nat) (acc : List Char),
    (∀ x ∈ acc, x ≠ '@') → ∀ x ∈ natCharsGo fuel n acc, x ≠ '@' := by
  intro fuel
  induction fuel with
  | zero => intro n acc hacc; exact hacc
  | succ f ih =>
    intro n acc hacc
    unfold natCharsGo
    by_cases h : n = 0
    · rw [if_pos h]; exact hacc
    · rw [if_neg h]
      refine ih _ _ (fun x hx => ?_)
      rcases List.mem_cons.1 hx with h1 | h2
      · rw [h1]; exact digitChar_ne_at _
      · exact hacc x h2

theorem natChars_at_free (n : Nat) : ∀ x ∈ natChars n, x ≠ '@' := by
  unfold natChars
  by_cases h : n = 0
  · rw [if_pos h]
    intro x hx
    rw [List.mem_singleton.1 hx]
    decide
  · rw [if_neg h]
    exact natCharsGo_at_free _ _ _ (fun x hx => absurd hx (List.not_mem_nil x))

theorem intChars_at_free (i : Int) : ∀ x ∈ intChars i, x ≠ '@' := by
  unfold intChars
  by_cases h : i < 0
  · rw [if_pos h]
    intro x hx
    rcases List.mem_cons.1 hx with h1 | h2
    · rw [h1]; decide
    · exact natChars_at_free _ x h2
  · rw [if_neg h]
    exact natChars_at_free _

theorem pollLoop_terminates (deadline : Nat) :
    ∀ polls : List Poll,
      (∃ p ∈ polls, deadline < p.1 ∨ ∃ d, p.2 = Except.ok d ∧ connectivityReady d = true) →
      pollLoop deadline polls = true := by
  intro polls
  induction polls with
  | nil => rintro ⟨p, hp, _⟩; cases hp
  | cons q rest ih =>
    rintro ⟨p, hp, hcond⟩
    obtain ⟨t, r⟩ := q
    by_cases hd : deadline < t
    · unfold pollLoop; rw [if_pos hd]
    · cases r with
      | error e =>
        unfold pollLoop
        rw [if_neg hd]
        apply ih
        rcases List.mem_cons.1 hp with h | hmem
        · subst h
          rcases hcond with h1 | ⟨d, hr, _⟩
          · exact absurd h1 hd
          · cases hr
        · exact ⟨p, hmem, hcond⟩
      | ok dump =>
        unfold pollLoop
        rw [if_neg hd]
        show (if connectivityReady dump = true then true else pollLoop deadline rest) = true
        by_cases hrdy : connectivityReady dump = true
        · rw [if_pos hrdy]
        · rw [if_neg hrdy]
          apply ih
          rcases List.mem_cons.1 hp with h | hmem
          · subst h
            rcases hcond with h1 | ⟨d, hr, hready⟩
            · exact absurd h1 hd
            · injection hr with hr2
              rw [← hr2] at hready
              exact absurd hready hrdy
          · exact ⟨p, hmem, hcond⟩

theorem inconsistentState_iff (ns : PyStr) :
    inconsistentState ns = true ↔
      ((∃ l r, ns = l ++ ("system_server".toList ++ r)) ∨
        (∃ l r, ns = l ++ ("ntp_server".toList ++ r)) ∨
        (∃ l r, ns = l ++ ("adbd".toList ++ r))) ∧
      ¬ ∃ l r, ns = l ++ ("frida-server".toList ++ r) := by
  unfold inconsistentState
  rw [Bool.and_eq_true, Bool.or_eq_true, Bool.or_eq_true, Bool.not_eq_true',
    containsSub_iff, containsSub_iff, containsSub_iff, or_assoc]
  refine and_congr_right (fun _ => ⟨fun h2 hex => ?_, fun h2 => ?_⟩)
  · rw [(containsSub_iff _ _).2 hex] at h2
    cases h2
  · cases hcs : containsSub ("frida-server".toList) ns with
    | false => rfl
    | true => exact absurd ((containsSub_iff _ _).1 hcs) h2

theorem countSub_zero_of_marked (t : PyStr) (c0 : Char) (ht : t.head? = some c0) :
    ∀ s : PyStr, (∀ x ∈ s, x ≠ c0) → countSub t s = 0 := by
  obtain ⟨u, rfl⟩ : ∃ u, t = c0 :: u := by
    cases t with
    | nil => cases ht
    | cons h tl => exact ⟨tl, by injection ht with h1; rw [h1]⟩
  intro s
  induction s with
  | nil => intro _; rfl
  | cons x xs ih =>
    intro hmem
    have hx : x ≠ c0 := hmem x (List.mem_cons_self x xs)
    unfold countSub
    rw [show startsWith (c0 :: u) (x :: xs) = false by
          unfold startsWith; rw [if_neg (fun h => hx h.symm)]]
    simp only [Bool.false_eq_true, if_false, Nat.zero_add]
    exact ih (fun y hy => hmem y (List.mem_cons_of_mem x hy))

/-! ## Shared concrete inputs -/

/-- A configuration document with every recognized key absent
(the fresh `{}` written by `main` on first run). -/
def emptyCfg : Config :=
  { version := none, networkConfig := none, server := none, userConfig := none,
    scriptConfig := none }

/-- A scripts-directory listing in which a non-bootstrap script sorts
before the bootstrap `_.js`. -/
def scriptsFreshRun : List (String × PyStr) :=
  [("a.js", []), ("_.js", [])]

/-- The document produced by a successful load pass over
`scriptsFreshRun` when `scriptConfig` was present (empty) beforehand. -/
def cfgAfterRegistered : Config :=
  { version := none, networkConfig := none,
    server := some { host := some "127.0.0.1".toList, port := some 8080, noProxy := some false },
    userConfig := some { defaultDevice := none, activityMinStartTs := some 0, activityMaxStartTs := some 0 },
    scriptConfig := some [("a.js", false), ("_.js", false)] }

/-! ## Claim theorems -/

/-- A configuration whose `server` and `userConfig` dicts are present
(so the per-file key-defaulting at lines 819-828 succeeds) but with no
`scriptConfig` key. -/
def cfgSU : Config :=
  let sv : ServerNode := { host := none, port := none, noProxy := none }
  let u : UserNode := { defaultDevice := none, activityMinStartTs := none, activityMaxStartTs := none }
  { emptyCfg with server := some sv, userConfig := some u }

/-- C1 (code_bug): a filename unseen by `scriptConfig` is NOT always
registered and persisted.  With `server` and `userConfig` present (so
lines 819-828 succeed) but no `scriptConfig` key, and a non-bootstrap
file processed first, line 853 creates the mapping empty without
registering the current filename and line 856 then raises `KeyError`,
so `script_manager` aborts before the persist at line 860 and nothing
is recorded.  With the mapping present (even empty) beforehand, the
same listing succeeds: the unseen `a.js` is registered `false` in the
persisted document and only `_.js` is loaded — the documented intent
the `elif` at line 854 breaks.  (On a document also lacking the
`server` dict, the pass dies even earlier: line 819 raises `KeyError`
before the `scriptConfig` logic is ever reached.) -/
theorem script_manager_keyError_on_fresh_scriptConfig :
    script_manager cfgSU scriptsFreshRun = Except.error PyErr.keyError ∧
    script_manager { cfgSU with scriptConfig := some [] } scriptsFreshRun =
      Except.ok (cfgAfterRegistered, ["_.js"]) ∧
    script_manager emptyCfg scriptsFreshRun = Except.error PyErr.keyError :=
  ⟨rfl, rfl, rfl⟩

/-- C2 counterexample: with the version request timing out on a fresh
document, `check_updates` issues the version request exactly once —
there is no retry (the claim asserts one retry, hence two issues) —
and still completes with the stored (defaulted) version data. -/
theorem check_updates_timeout_no_retry_cex :
    (check_updates emptyCfg (Except.error ()) (Except.error ())).versionRequests = 1 ∧
    (check_updates emptyCfg (Except.error ()) (Except.error ())).versionRequests ≠ 2 ∧
    (check_updates emptyCfg (Except.error ()) (Except.error ())).config =
      Except.ok (defaultFuncVerKey (defaultVersionKeys emptyCfg)) :=
  ⟨rfl, by decide, rfl⟩

/-- C2 (amended): when the version-information request times out, the
run is never aborted and no retry is attempted: the request is issued
exactly once, the network-config request is never reached, both
updaters are skipped, and the run proceeds with the stale stored
version data (the document is only key-defaulted, every stored version
value surviving unchanged). -/
theorem check_updates_timeout_proceeds_stale (cfg : Config) (net : Except Unit NetContent) :
    (check_updates cfg (Except.error ()) net).config =
      Except.ok (defaultFuncVerKey (defaultVersionKeys cfg)) ∧
    (check_updates cfg (Except.error ()) net).versionRequests = 1 ∧
    (check_updates cfg (Except.error ()) net).networkRequests = 0 ∧
    (check_updates cfg (Except.error ()) net).updateClientCalled = false ∧
    (check_updates cfg (Except.error ()) net).updateActivityCalled = false ∧
    (defaultFuncVerKey (defaultVersionKeys cfg)).resVer = cfg.resVer ∧
    (defaultFuncVerKey (defaultVersionKeys cfg)).clientVer = cfg.clientVer ∧
    (defaultFuncVerKey (defaultVersionKeys cfg)).funcV = cfg.funcV :=
  ⟨rfl, rfl, rfl, rfl, rfl, rfl, rfl, rfl⟩

/-- C4 counterexample: `main` passes one and the same `Event` object to
both producers, so the two signal identifiers coincide and setting the
device-state signal on an all-unset store makes the server-listening
signal read as set — the claimed independence fails. -/
theorem main_single_event_cex :
    deviceReadyEventId = serverReadyEventId ∧
    applyOp (fun _ => false) (EventOp.set deviceReadyEventId) serverReadyEventId = true :=
  ⟨rfl, rfl⟩

/-- C4 (amended): a single shared event instance carries both signals:
the run performs set, wait, clear, set, wait on that one id, the clear
happens exactly once (after the first consumption, before the second
set), no clear follows the final wait, and the sequential execution of
this trace completes with the event left set. -/
theorem main_event_reuse :
    deviceReadyEventId = serverReadyEventId ∧
    mainEventOps =
      [EventOp.set deviceReadyEventId, EventOp.wait deviceReadyEventId,
        EventOp.clear deviceReadyEventId, EventOp.set deviceReadyEventId,
        EventOp.wait deviceReadyEventId] ∧
    (mainEventOps.filter (fun op => match op with | EventOp.clear _ => true | _ => false)).length = 1 ∧
    (mainEventOps.drop 4).all (fun op => match op with | EventOp.clear _ => false | _ => true) = true ∧
    (runOps (fun _ => false) mainEventOps).map (fun f => f serverReadyEventId) = some true :=
  ⟨rfl, rfl, rfl, rfl, rfl⟩

/-- C5: whenever the poll schedule carries a tick past the 30-second
soft deadline or a dump matched by the connectivity pattern, the
monitor terminates with the readiness event set: immediately and
without reboot when the initial dump shows no inconsistency, and at
the end of the reboot-and-poll loop otherwise; a failed `dumpsys`
(`CalledProcessError`) inside the loop merely continues the polling. -/
theorem check_device_state_signals_ready (netstat : PyStr) (t0 : Nat) (polls : List Poll)
    (H : inconsistentState netstat = true →
      ∃ p ∈ polls, t0 + 30 < p.1 ∨ ∃ d, p.2 = Except.ok d ∧ connectivityReady d = true) :
    (check_device_state netstat t0 polls).eventSet = true ∧
    (inconsistentState netstat = false → (check_device_state netstat t0 polls).rebooted = false) ∧
    (∀ (t : Nat) (rest : List Poll), ¬ t0 + 30 < t →
      pollLoop (t0 + 30) ((t, Except.error ()) :: rest) = pollLoop (t0 + 30) rest) := by
  refine ⟨?_, ?_, ?_⟩
  · unfold check_device_state
    by_cases hinc : inconsistentState netstat = true
    · rw [if_pos hinc]
      exact pollLoop_terminates _ _ (H hinc)
    · rw [if_neg hinc]
  · intro hfalse
    unfold check_device_state
    rw [if_neg (fun h => by rw [hfalse] at h; cases h)]
  · intro t rest hnt
    conv_lhs => rw [pollLoop]
    rw [if_neg hnt]

/-- A netstat dump exhibiting the inconsistent state (stable-state
marker present, instrumentation server absent). -/
def inconsNetstat : PyStr := "tcp LISTEN system_server".toList

/-- Witness for C5: a concrete inconsistent dump with a schedule whose
only poll tick lies past the soft deadline still ends with the event
set. -/
theorem check_device_state_signals_ready_witness :
    (check_device_state inconsNetstat 0 [(31, Except.error ())]).eventSet = true :=
  (check_device_state_signals_ready inconsNetstat 0 [(31, Except.error ())]
    (fun _ => ⟨(31, Except.error ()), List.Mem.head _, Or.inl (by decide)⟩)).1

/-- C6: `check_device_state` issues the reboot exactly when the
listening-socket dump contains at least one of the markers
`system_server`, `ntp_server`, `adbd` as a substring and does not
contain `frida-server`. -/
theorem check_device_state_reboot_iff (netstat : PyStr) (t0 : Nat) (polls : List Poll) :
    (check_device_state netstat t0 polls).rebooted = true ↔
      ((∃ l r, netstat = l ++ ("system_server".toList ++ r)) ∨
        (∃ l r, netstat = l ++ ("ntp_server".toList ++ r)) ∨
        (∃ l r, netstat = l ++ ("adbd".toList ++ r))) ∧
      ¬ ∃ l r, netstat = l ++ ("frida-server".toList ++ r) := by
  rw [← inconsistentState_iff]
  unfold check_device_state
  by_cases hinc : inconsistentState netstat = true
  · rw [if_pos hinc]
    simp [hinc]
  · rw [if_neg hinc]
    simp [hinc]

/-- A configuration remembering a default serial that matches no
enumerated device. -/
def cfgDefaultZ : Config :=
  let u : UserNode :=
    { defaultDevice := some (some "Z"), activityMinStartTs := none, activityMaxStartTs := none }
  { emptyCfg with userConfig := some u }

/-- C3 counterexample: with two devices enumerated and the remembered
default `"Z"` matching neither, `get_device` returns the first device
after zero operator input reads — the matching loop at lines 408-416
falls through to `return devices[0]` at line 441, so no list is
presented and no selection is read. -/
theorem get_device_unmatched_default_silent_cex :
    get_device [{ serial := "A" }, { serial := "B" }] cfgDefaultZ [] =
      some { device := { serial := "A" }, inputReads := 0, config := cfgDefaultZ } :=
  rfl

/-- C3 (amended): with more than one enumerated device and a
remembered default serial that is set (non-empty) but matches none of
them, `get_device` silently returns the first enumerated device with
zero prompts and zero input reads. -/
theorem get_device_unmatched_default_returns_first
    (d0 : Device) (tl : List Device) (cfg : Config) (inputs : List String) (s : String)
    (hlen : 1 < (d0 :: tl).length)
    (hdflt : cfg.userD.defaultDevice.getD none = some s)
    (hs : s ≠ "")
    (hnomatch : ∀ d ∈ d0 :: tl, d.serial ≠ s) :
    get_device (d0 :: tl) cfg inputs =
      some { device := d0, inputReads := 0, config := defaultUserDevice cfg } := by
  have hd : (defaultUserDevice cfg).userD.defaultDevice.getD none = some s := by
    rw [show (defaultUserDevice cfg).userD.defaultDevice.getD none
          = cfg.userD.defaultDevice.getD none from rfl, hdflt]
  have htr : pyTruthy ((defaultUserDevice cfg).userD.defaultDevice.getD none) = true := by
    rw [hd]
    simpa [pyTruthy] using hs
  have hfind : (d0 :: tl).find?
      (fun d => d.serial = (((defaultUserDevice cfg).userD.defaultDevice.getD none).getD "")) = none := by
    rw [hd]
    refine List.find?_eq_none.2 (fun x hx => ?_)
    simpa using hnomatch x hx
  simp only [get_device]
  rw [if_pos hlen, if_pos htr, hfind]

/-- Witness for the amended C3 at a concrete unmatched default. -/
theorem get_device_unmatched_default_returns_first_witness :
    get_device [{ serial := "A" }, { serial := "B" }] cfgDefaultZ ["1"] =
      some { device := { serial := "A" }, inputReads := 0, config := defaultUserDevice cfgDefaultZ } :=
  get_device_unmatched_default_returns_first { serial := "A" } [{ serial := "B" }] cfgDefaultZ
    ["1"] "Z" (by decide) rfl (by decide) (by decide)

/-- C8: `get_device` returns a device with zero operator reads when
(a) exactly one device is enumerated (that device is returned), or
(b) several are enumerated and the remembered default serial matches
one of them (the first matching device is returned). -/
theorem get_device_no_prompt_paths :
    (∀ (d : Device) (cfg : Config) (inputs : List String),
      get_device [d] cfg inputs = some { device := d, inputReads := 0, config := cfg }) ∧
    (∀ (d0 : Device) (tl : List Device) (cfg : Config) (inputs : List String) (s : String) (d : Device),
      1 < (d0 :: tl).length →
      cfg.userD.defaultDevice.getD none = some s → s ≠ "" →
      (d0 :: tl).find? (fun x => x.serial = s) = some d →
      get_device (d0 :: tl) cfg inputs =
        some { device := d, inputReads := 0, config := defaultUserDevice cfg }) := by
  constructor
  · intro d cfg inputs
    rfl
  · intro d0 tl cfg inputs s d hlen hdflt hs hfind
    have hd : (defaultUserDevice cfg).userD.defaultDevice.getD none = some s := by
      rw [show (defaultUserDevice cfg).userD.defaultDevice.getD none
            = cfg.userD.defaultDevice.getD none from rfl, hdflt]
    have htr : pyTruthy ((defaultUserDevice cfg).userD.defaultDevice.getD none) = true := by
      rw [hd]
      simpa [pyTruthy] using hs
    have hfind2 : (d0 :: tl).find?
        (fun x => x.serial = (((defaultUserDevice cfg).userD.defaultDevice.getD none).getD "")) =
          some d := by
      rw [hd]
      simpa using hfind
    simp only [get_device]
    rw [if_pos hlen, if_pos htr, hfind2]

/-- A configuration remembering the serial of the second enumerated
device. -/
def cfgDefaultB : Config :=
  let u : UserNode :=
    { defaultDevice := some (some "B"), activityMinStartTs := none, activityMaxStartTs := none }
  { emptyCfg with userConfig := some u }

/-- Witness for C8: both silent paths at concrete inputs. -/
theorem get_device_no_prompt_paths_witness :
    get_device [{ serial := "A" }] emptyCfg [] =
      some { device := { serial := "A" }, inputReads := 0, config := emptyCfg } ∧
    get_device [{ serial := "A" }, { serial := "B" }] cfgDefaultB [] =
      some { device := { serial := "B" }, inputReads := 0, config := defaultUserDevice cfgDefaultB } :=
  ⟨get_device_no_prompt_paths.1 { serial := "A" } emptyCfg [],
   get_device_no_prompt_paths.2 { serial := "A" } [{ serial := "B" }] cfgDefaultB [] "B"
     { serial := "B" } (by decide) rfl (by decide) (by decide)⟩

/-- C9: in the interactive selection (several devices, falsy default),
operator input `"2"` returns the second listed device after exactly the
selection read and the confirmation read; the inputs `"0"`, `"99"`
(with fewer than 99 devices) and `"abc"` each re-prompt (one recursion
of the loop) rather than crash or return; and the loop only ever
returns on an input parsing to an integer between 1 and the device
count inclusive, yielding that index minus one. -/
theorem get_device_interactive_selection :
    (∀ (d0 d1 : Device) (tl : List Device) (cfg : Config) (rest : List String),
      pyTruthy (cfg.userD.defaultDevice.getD none) = false →
      get_device (d0 :: d1 :: tl) cfg ("2" :: "n" :: rest) =
        some { device := d1, inputReads := 2, config := defaultUserDevice cfg }) ∧
    (∀ (n : Nat) (rest : List String), selectionLoop n ("0" :: rest) = selectionLoop n rest) ∧
    (∀ (n : Nat) (rest : List String), n < 99 →
      selectionLoop n ("99" :: rest) = selectionLoop n rest) ∧
    (∀ (n : Nat) (rest : List String), selectionLoop n ("abc" :: rest) = selectionLoop n rest) ∧
    (∀ (n : Nat) (inputs : List String) (i : Nat) (rest : List String),
      selectionLoop n inputs = some (i, rest) →
      ∃ pre s k, inputs = pre ++ s :: rest ∧ pyInt s = some k ∧ 1 ≤ k ∧ k ≤ (n : Int) ∧
        (i : Int) = k - 1) := by
  refine ⟨?_, ?_, ?_, ?_, ?_⟩
  · intro d0 d1 tl cfg rest hfalsy
    have hlen : 1 < (d0 :: d1 :: tl).length := by
      simp only [List.length_cons]
      omega
    have htr : pyTruthy ((defaultUserDevice cfg).userD.defaultDevice.getD none) = false := by
      rw [show (defaultUserDevice cfg).userD.defaultDevice.getD none
            = cfg.userD.defaultDevice.getD none from rfl]
      exact hfalsy
    have h2 : pyInt "2" = some 2 := rfl
    have hlen2 : 2 ≤ (d0 :: d1 :: tl).length := by
      simp only [List.length_cons]
      omega
    have hcond : ¬((2 : Int) - 1 < 0 ∨ ((d0 :: d1 :: tl).length : Int) ≤ 2 - 1) := by
      push_neg
      refine ⟨by norm_num, ?_⟩
      have hle : (2 : Int) ≤ ((d0 :: d1 :: tl).length : Int) := by exact_mod_cast hlen2
      omega
    have hsel : selectionLoop (d0 :: d1 :: tl).length ("2" :: "n" :: rest) =
        some (1, "n" :: rest) := by
      simp only [selectionLoop, h2]
      rw [if_neg hcond]
      rfl
    have hpf : promptFlow (d0 :: d1 :: tl) (defaultUserDevice cfg) ("2" :: "n" :: rest) =
        promptFinish (d0 :: d1 :: tl) (defaultUserDevice cfg)
          ("2" :: "n" :: rest : List String).length 1 ("n" :: rest) := by
      unfold promptFlow
      rw [hsel]
    have harith : ("2" :: "n" :: rest : List String).length - rest.length = 2 := by
      simp only [List.length_cons]
      omega
    simp only [get_device]
    rw [if_pos hlen, if_neg (fun h => by rw [htr] at h; cases h), hpf]
    simp only [promptFinish]
    rw [harith, show pyYes "n" = false from rfl]
    rfl
  · intro n rest
    have h0 : pyInt "0" = some 0 := rfl
    simp only [selectionLoop, h0]
    rw [if_pos (Or.inl (by norm_num))]
  · intro n rest hn
    have h99 : pyInt "99" = some 99 := rfl
    simp only [selectionLoop, h99]
    rw [if_pos (Or.inr (by push_cast; omega))]
  · intro n rest
    have habc : pyInt "abc" = (none : Option Int) := rfl
    simp only [selectionLoop, habc]
  · intro n inputs
    induction inputs with
    | nil => intro i rest h; cases h
    | cons s rest0 ih =>
      intro i rest h
      rw [selectionLoop] at h
      cases hpy : pyInt s with
      | none =>
        simp only [hpy] at h
        obtain ⟨pre, s2, k, hpre, hint, hk1, hk2, hik⟩ := ih i rest h
        exact ⟨s :: pre, s2, k, by rw [List.cons_append, hpre], hint, hk1, hk2, hik⟩
      | some k =>
        simp only [hpy] at h
        by_cases hc : k - 1 < 0 ∨ (n : Int) ≤ k - 1
        · rw [if_pos hc] at h
          obtain ⟨pre, s2, k2, hpre, hint, hk1, hk2, hik⟩ := ih i rest h
          exact ⟨s :: pre, s2, k2, by rw [List.cons_append, hpre], hint, hk1, hk2, hik⟩
        · rw [if_neg hc] at h
          push_neg at hc
          obtain ⟨hc1, hc2⟩ := hc
          have h2 := Option.some.inj h
          have hi : (k - 1).toNat = i := (Prod.mk.injEq _ _ _ _ ▸ h2).1
          have hr : rest0 = rest := (Prod.mk.injEq _ _ _ _ ▸ h2).2
          refine ⟨[], s, k, by rw [List.nil_append, hr], hpy, by omega, by omega, ?_⟩
          rw [← hi]
          exact Int.toNat_of_nonneg (by omega)

/-- Witness for C9: concrete two-device interactive run and concrete
loop behaviors. -/
theorem get_device_interactive_selection_witness :
    get_device [{ serial := "A" }, { serial := "B" }] emptyCfg ["2", "n"] =
      some { device := { serial := "B" }, inputReads := 2, config := defaultUserDevice emptyCfg } ∧
    selectionLoop 2 ["0"] = selectionLoop 2 [] ∧
    selectionLoop 2 ["99"] = selectionLoop 2 [] ∧
    selectionLoop 2 ["abc"] = selectionLoop 2 [] ∧
    (∃ pre s k, (["2"] : List String) = pre ++ s :: ([] : List String) ∧ pyInt s = some k ∧
      1 ≤ k ∧ k ≤ ((2 : Nat) : Int) ∧ ((1 : Nat) : Int) = k - 1) :=
  ⟨get_device_interactive_selection.1 { serial := "A" } { serial := "B" } [] emptyCfg [] rfl,
   get_device_interactive_selection.2.1 2 [],
   get_device_interactive_selection.2.2.1 2 [] (by decide),
   get_device_interactive_selection.2.2.2.1 2 [],
   get_device_interactive_selection.2.2.2.2 2 ["2"] 1 [] rfl⟩

theorem setResVer_content (c : Config) (r : String) : (setResVer c r).content = c.content := rfl

theorem setClientVer_content (c : Config) (r : String) : (setClientVer c r).content = c.content := rfl

theorem applyVersionResp_content (c : Config) (v : VersionResp) :
    (applyVersionResp c v).1.content = c.content := by
  unfold applyVersionResp
  show (if v.clientVersion ≠ c.clientVer then
          setClientVer (if v.resVersion ≠ c.resVer then setResVer c v.resVersion else c) v.clientVersion
        else (if v.resVersion ≠ c.resVer then setResVer c v.resVersion else c)).content = c.content
  by_cases h2 : v.clientVersion ≠ c.clientVer
  · rw [if_pos h2, setClientVer_content]
    by_cases h1 : v.resVersion ≠ c.resVer
    · rw [if_pos h1, setResVer_content]
    · rw [if_neg h1]
  · rw [if_neg h2]
    by_cases h1 : v.resVersion ≠ c.resVer
    · rw [if_pos h1, setResVer_content]
    · rw [if_neg h1]

theorem applyNetContent_spec (c : Config) (oldFunc : String) (n : NetContent)
    (m : List (String × NetworkEntry)) (hc : c.content.configs = some m)
    (hne : n.funcVer ≠ oldFunc) :
    applyNetContent c oldFunc n =
      match alookup m oldFunc with
      | none => Except.error PyErr.keyError
      | some e => Except.ok (setContent c
          { funcVer := some n.funcVer,
            configs := some (dictErase (dictSet m n.funcVer e) oldFunc) }) := by
  unfold applyNetContent
  rw [if_pos hne]
  simp only [hc, Option.isNone_some, Bool.false_eq_true, if_false, Option.getD_some]

theorem check_updates_config_ok_ok (cfg : Config) (v : VersionResp) (n : NetContent) :
    (check_updates cfg (Except.ok v) (Except.ok n)).config =
      applyNetContent (applyVersionResp (defaultFuncVerKey (defaultVersionKeys cfg)) v).1
        (defaultFuncVerKey (defaultVersionKeys cfg)).funcV n := by
  simp only [check_updates]
  cases hres : applyNetContent (applyVersionResp (defaultFuncVerKey (defaultVersionKeys cfg)) v).1
      (defaultFuncVerKey (defaultVersionKeys cfg)).funcV n with
  | error e => rfl
  | ok c3 => rfl

/-- C10: when the fetched `funcVer` differs from the stored one and the
document already holds a `configs` mapping, `check_updates` re-keys
that mapping — the value stored under the old `funcVer` moves to the
new key and the old key is deleted — and if the mapping has no entry
for the old `funcVer`, the read at line 285 raises an uncaught
`KeyError` (only `Timeout` is caught) and `check_updates` does not
complete. -/
theorem check_updates_rekeys_configs (cfg : Config) (v : VersionResp) (n : NetContent)
    (m : List (String × NetworkEntry))
    (hconf : cfg.content.configs = some m)
    (hne : n.funcVer ≠ cfg.funcV) :
    (∀ e, alookup m cfg.funcV = some e →
      ∃ cfg2, (check_updates cfg (Except.ok v) (Except.ok n)).config = Except.ok cfg2 ∧
        cfg2.content.configs = some (dictErase (dictSet m n.funcVer e) cfg.funcV) ∧
        cfg2.funcV = n.funcVer) ∧
    (alookup m cfg.funcV = none →
      (check_updates cfg (Except.ok v) (Except.ok n)).config = Except.error PyErr.keyError) := by
  have hc2configs :
      (applyVersionResp (defaultFuncVerKey (defaultVersionKeys cfg)) v).1.content.configs = some m := by
    rw [applyVersionResp_content]
    rw [show (defaultFuncVerKey (defaultVersionKeys cfg)).content.configs
          = cfg.content.configs from rfl]
    exact hconf
  have hnet := applyNetContent_spec
    (applyVersionResp (defaultFuncVerKey (defaultVersionKeys cfg)) v).1 cfg.funcV n m
    hc2configs hne
  constructor
  · intro e he
    refine ⟨setContent (applyVersionResp (defaultFuncVerKey (defaultVersionKeys cfg)) v).1
      { funcVer := some n.funcVer, configs := some (dictErase (dictSet m n.funcVer e) cfg.funcV) },
      ?_, rfl, rfl⟩
    rw [check_updates_config_ok_ok,
      show (defaultFuncVerKey (defaultVersionKeys cfg)).funcV = cfg.funcV from rfl, hnet, he]
  · intro he
    rw [check_updates_config_ok_ok,
      show (defaultFuncVerKey (defaultVersionKeys cfg)).funcV = cfg.funcV from rfl, hnet, he]

/-- A configuration already carrying a `configs` mapping keyed by the
stored `funcVer`. -/
def cfgWithConfigs : Config :=
  let ct : ContentNode := { funcVer := some "old", configs := some [("old", defaultNetworkEntry)] }
  { emptyCfg with networkConfig := some { cn := some { content := some ct } } }

/-- Witness for C10: a concrete document whose `configs` entry is
re-keyed from `"old"` to `"new"`. -/
theorem check_updates_rekeys_configs_witness :
    ∃ cfg2, (check_updates cfgWithConfigs (Except.ok { resVersion := "r", clientVersion := "c" })
        (Except.ok { funcVer := "new" })).config = Except.ok cfg2 ∧
      cfg2.content.configs =
        some (dictErase (dictSet [("old", defaultNetworkEntry)] "new" defaultNetworkEntry) "old") ∧
      cfg2.funcV = "new" :=
  (check_updates_rekeys_configs cfgWithConfigs { resVersion := "r", clientVersion := "c" }
    { funcVer := "new" } [("old", defaultNetworkEntry)] rfl (by decide)).1
    defaultNetworkEntry rfl

theorem hostTok_head : hostTok.head? = some '@' := rfl

theorem portTok_head : portTok.head? = some '@' := rfl

theorem minTok_head : minTok.head? = some '@' := rfl

theorem maxTok_head : maxTok.head? = some '@' := rfl

theorem atTok_head : ("@@@".toList : PyStr).head? = some '@' := rfl

/-- A configuration like `cfgSU` but in which the `server` fields have
already been defaulted (the result of `defaultServerKeys cfgSU`). -/
def cfgSUmid : Config :=
  let sv : ServerNode := { host := some "127.0.0.1".toList, port := some 8080, noProxy := some false }
  let u : UserNode := { defaultDevice := none, activityMinStartTs := none, activityMaxStartTs := none }
  { emptyCfg with server := some sv, userConfig := some u }

/-- `cfgSU` after both per-file defaulting passes succeeded. -/
def cfgSUD : Config :=
  let sv : ServerNode := { host := some "127.0.0.1".toList, port := some 8080, noProxy := some false }
  let u : UserNode := { defaultDevice := none, activityMinStartTs := some 0, activityMaxStartTs := some 0 }
  { emptyCfg with server := some sv, userConfig := some u }

/-- A bootstrap source in which each of the four tokens occurs exactly
once, but the HOST and PORT occurrences overlap on a shared `@@@`
delimiter (the HOST token's trailing `@@@` is the PORT token's leading
`@@@`). -/
def sOverlap : PyStr :=
  "x".toList ++ (hostTok ++ ("DOCTORATE_PORT@@@".toList ++ (minTok ++
    ("y".toList ++ (maxTok ++ "z".toList)))))

set_option maxRecDepth 16000 in
/-- C7 counterexample: `sOverlap` contains exactly one occurrence of
each of the four placeholder tokens, yet after the substitution chain
(applied to a fully defaulted configuration) the stringified port value
`8080` appears nowhere, the port token text survives unsubstituted, and
a stray `@@@` remains — replacing the HOST occurrence consumed the
shared delimiter and destroyed the PORT occurrence before its
`replace` ran, refuting the claim over bare exactly-once sources. -/
theorem bootstrap_substitution_order_cex :
    countSub hostTok sOverlap = 1 ∧ countSub portTok sOverlap = 1 ∧
    countSub minTok sOverlap = 1 ∧ countSub maxTok sOverlap = 1 ∧
    portValue cfgSUD = "8080".toList ∧
    containsSub ("8080".toList) (substituteBootstrap cfgSUD sOverlap) = false ∧
    containsSub ("DOCTORATE_PORT".toList) (substituteBootstrap cfgSUD sOverlap) = true ∧
    countSub ("@@@".toList) (substituteBootstrap cfgSUD sOverlap) = 1 :=
  ⟨rfl, rfl, rfl, rfl, rfl, rfl, rfl, rfl⟩

/-- C7 (amended): for a bootstrap source carrying the four placeholder
tokens once each, in their canonical order, separated by text free of
the `@` delimiter character, and for a configuration whose `server`
and `userConfig` dicts are present (otherwise the load pass raises
`KeyError` at lines 819/825 before any substitution) and whose host
value is `@`-free, the load step on the bootstrap filename succeeds
and loads the text in which each token occurrence is replaced by its
value — the HOST token by `"NO_PROXY"` under `noProxy` and by the
configured host otherwise, the PORT and the two activity-timestamp
tokens by the stringified configured values with per-key defaults
inserted when absent — and the loaded text contains no `@` at all,
hence zero remaining `@@@...@@@` placeholders. -/
theorem bootstrap_substitution_complete
    (cfg cfg1 cfg2 : Config) (g1 g2 g3 g4 g5 : PyStr) (s : PyStr)
    (hd1 : defaultServerKeys cfg = Except.ok cfg1)
    (hd2 : defaultActivityKeys cfg1 = Except.ok cfg2)
    (hs : s = g1 ++ (hostTok ++ (g2 ++ (portTok ++ (g3 ++ (minTok ++ (g4 ++ (maxTok ++ g5))))))))
    (h1 : ∀ x ∈ g1, x ≠ '@') (h2 : ∀ x ∈ g2, x ≠ '@') (h3 : ∀ x ∈ g3, x ≠ '@')
    (h4 : ∀ x ∈ g4, x ≠ '@') (h5 : ∀ x ∈ g5, x ≠ '@')
    (hhost : ∀ x ∈ hostValue cfg2, x ≠ '@') :
    scriptStep cfg "_.js" s =
      Except.ok (scriptRegister cfg2 "_.js",
        some (g1 ++ (hostValue cfg2 ++ (g2 ++ (portValue cfg2 ++
          (g3 ++ (minValue cfg2 ++ (g4 ++ (maxValue cfg2 ++ g5))))))))) ∧
    hostValue cfg2 = (if cfg2.serverD.noProxy.getD false then "NO_PROXY".toList
      else cfg2.serverD.host.getD "127.0.0.1".toList) ∧
    countSub ("@@@".toList) (substituteBootstrap cfg2 s) = 0 := by
  have hport : ∀ x ∈ portValue cfg2, x ≠ '@' := intChars_at_free _
  have hmin : ∀ x ∈ minValue cfg2, x ≠ '@' := intChars_at_free _
  have hmax : ∀ x ∈ maxValue cfg2, x ≠ '@' := intChars_at_free _
  have e1 : replaceFirst hostTok (hostValue cfg2) s =
      g1 ++ (hostValue cfg2 ++ (g2 ++ (portTok ++ (g3 ++ (minTok ++ (g4 ++ (maxTok ++ g5))))))) := by
    rw [hs]
    exact replaceFirst_marked hostTok (hostValue cfg2) '@' hostTok_head g1 _ h1
  have hshape1 : g1 ++ (hostValue cfg2 ++ (g2 ++ (portTok ++ (g3 ++ (minTok ++ (g4 ++ (maxTok ++ g5))))))) =
      (g1 ++ (hostValue cfg2 ++ g2)) ++ (portTok ++ (g3 ++ (minTok ++ (g4 ++ (maxTok ++ g5))))) := by
    simp [List.append_assoc]
  have ha2 : ∀ x ∈ g1 ++ (hostValue cfg2 ++ g2), x ≠ '@' := by
    intro x hx
    rcases List.mem_append.1 hx with h | h
    · exact h1 x h
    rcases List.mem_append.1 h with h | h
    · exact hhost x h
    · exact h2 x h
  have e2 : replaceFirst portTok (portValue cfg2)
      (g1 ++ (hostValue cfg2 ++ (g2 ++ (portTok ++ (g3 ++ (minTok ++ (g4 ++ (maxTok ++ g5)))))))) =
      (g1 ++ (hostValue cfg2 ++ g2)) ++ (portValue cfg2 ++ (g3 ++ (minTok ++ (g4 ++ (maxTok ++ g5))))) := by
    rw [hshape1]
    exact replaceFirst_marked portTok (portValue cfg2) '@' portTok_head _ _ ha2
  have hshape2 : (g1 ++ (hostValue cfg2 ++ g2)) ++ (portValue cfg2 ++ (g3 ++ (minTok ++ (g4 ++ (maxTok ++ g5))))) =
      ((g1 ++ (hostValue cfg2 ++ g2)) ++ (portValue cfg2 ++ g3)) ++ (minTok ++ (g4 ++ (maxTok ++ g5))) := by
    simp [List.append_assoc]
  have ha3 : ∀ x ∈ (g1 ++ (hostValue cfg2 ++ g2)) ++ (portValue cfg2 ++ g3), x ≠ '@' := by
    intro x hx
    rcases List.mem_append.1 hx with h | h
    · exact ha2 x h
    rcases List.mem_append.1 h with h | h
    · exact hport x h
    · exact h3 x h
  have e3 : replaceFirst minTok (minValue cfg2)
      ((g1 ++ (hostValue cfg2 ++ g2)) ++ (portValue cfg2 ++ (g3 ++ (minTok ++ (g4 ++ (maxTok ++ g5)))))) =
      ((g1 ++ (hostValue cfg2 ++ g2)) ++ (portValue cfg2 ++ g3)) ++ (minValue cfg2 ++ (g4 ++ (maxTok ++ g5))) := by
    rw [hshape2]
    exact replaceFirst_marked minTok (minValue cfg2) '@' minTok_head _ _ ha3
  have hshape3 : ((g1 ++ (hostValue cfg2 ++ g2)) ++ (portValue cfg2 ++ g3)) ++ (minValue cfg2 ++ (g4 ++ (maxTok ++ g5))) =
      (((g1 ++ (hostValue cfg2 ++ g2)) ++ (portValue cfg2 ++ g3)) ++ (minValue cfg2 ++ g4)) ++ (maxTok ++ g5) := by
    simp [List.append_assoc]
  have ha4 : ∀ x ∈ ((g1 ++ (hostValue cfg2 ++ g2)) ++ (portValue cfg2 ++ g3)) ++ (minValue cfg2 ++ g4), x ≠ '@' := by
    intro x hx
    rcases List.mem_append.1 hx with h | h
    · exact ha3 x h
    rcases List.mem_append.1 h with h | h
    · exact hmin x h
    · exact h4 x h
  have e4 : replaceFirst maxTok (maxValue cfg2)
      (((g1 ++ (hostValue cfg2 ++ g2)) ++ (portValue cfg2 ++ g3)) ++ (minValue cfg2 ++ (g4 ++ (maxTok ++ g5)))) =
      (((g1 ++ (hostValue cfg2 ++ g2)) ++ (portValue cfg2 ++ g3)) ++ (minValue cfg2 ++ g4)) ++ (maxValue cfg2 ++ g5) := by
    rw [hshape3]
    exact replaceFirst_marked maxTok (maxValue cfg2) '@' maxTok_head _ _ ha4
  have key : substituteBootstrap cfg2 s =
      g1 ++ (hostValue cfg2 ++ (g2 ++ (portValue cfg2 ++
        (g3 ++ (minValue cfg2 ++ (g4 ++ (maxValue cfg2 ++ g5))))))) := by
    unfold substituteBootstrap
    rw [e1, e2, e3, e4]
    simp [List.append_assoc]
  refine ⟨?_, rfl, ?_⟩
  · have hstep : scriptStep cfg "_.js" s =
        Except.ok (scriptRegister cfg2 "_.js", some (substituteBootstrap cfg2 s)) := by
      simp only [scriptStep, hd1, hd2, if_true]
    rw [hstep, key]
  · rw [key]
    apply countSub_zero_of_marked ("@@@".toList) '@' atTok_head
    intro x hx
    rcases List.mem_append.1 hx with h | h
    · exact h1 x h
    rcases List.mem_append.1 h with h | h
    · exact hhost x h
    rcases List.mem_append.1 h with h | h
    · exact h2 x h
    rcases List.mem_append.1 h with h | h
    · exact hport x h
    rcases List.mem_append.1 h with h | h
    · exact h3 x h
    rcases List.mem_append.1 h with h | h
    · exact hmin x h
    rcases List.mem_append.1 h with h | h
    · exact h4 x h
    rcases List.mem_append.1 h with h | h
    · exact hmax x h
    · exact h5 x h

/-- A minimal bootstrap source with each token exactly once, in order,
separated by token-free text. -/
def bootSample : PyStr :=
  "h=".toList ++ (hostTok ++ (";p=".toList ++ (portTok ++
    (";a=".toList ++ (minTok ++ (";b=".toList ++ (maxTok ++ ";".toList)))))))

set_option maxRecDepth 16000 in
/-- Witness for the amended C7: on a configuration with `server` and
`userConfig` present, the load step on `bootSample` succeeds with every
placeholder substituted. -/
theorem bootstrap_substitution_complete_witness :
    scriptStep cfgSU "_.js" bootSample =
      Except.ok (scriptRegister cfgSUD "_.js",
        some ("h=".toList ++ (hostValue cfgSUD ++ (";p=".toList ++ (portValue cfgSUD ++
          (";a=".toList ++ (minValue cfgSUD ++ (";b=".toList ++ (maxValue cfgSUD ++ ";".toList))))))))) ∧
    hostValue cfgSUD = (if cfgSUD.serverD.noProxy.getD false then "NO_PROXY".toList
      else cfgSUD.serverD.host.getD "127.0.0.1".toList) ∧
    countSub ("@@@".toList) (substituteBootstrap cfgSUD bootSample) = 0 :=
  bootstrap_substitution_complete cfgSU cfgSUmid cfgSUD "h=".toList ";p=".toList ";a=".toList
    ";b=".toList ";".toList bootSample rfl rfl rfl (by decide) (by decide) (by decide)
    (by decide) (by decide) (by decide)

end Launcher
